import Mathlib

/-!
Shallow embedding of the Poll Mutation and Vote Integrity core of the
alx-polly application (the server actions `createPoll`, `getPollById`,
`submitVote`, `deletePoll`, `updatePoll` in `app/lib/actions/poll-actions.ts`,
given here as `src/unnamed/part_002`).

Modelling conventions:
- The persistent store is a `Store` record holding the `polls` and `votes`
  tables as lists; a relational query `.eq(col, v)` becomes a list filter.
- A supabase `.single()` call succeeds exactly when the filtered row set has
  exactly one element; otherwise it reports an error and a null row, which is
  how the source consumes it.
- The authenticated principal returned by `supabase.auth.getUser()` is an
  `Option String` (the user id, or `none` when no session user exists).
  Transport-level failures of the identity provider (the `userError` branches)
  are outside the model: the provider either supplies a principal or does not.
- Each action returns its result value together with the store it leaves
  behind; the source actions return `{ error: string | null }` objects,
  modelled by `ActionResult`.
- `revalidatePath` (cache invalidation) has no observable effect on the data
  model and is not modelled.
-/

set_option maxRecDepth 8000

namespace AlxPolly

/-- Whitespace as JavaScript `String.prototype.trim` removes it, restricted to
the ASCII whitespace characters that can occur in the payloads modelled here. -/
def isJsWhitespace (c : Char) : Bool :=
  c == ' ' || c == '\t' || c == '\n' || c == '\r'

/-- JavaScript `String.prototype.trim`: drop whitespace from both ends,
modelled over the character list of the string. -/
def jsTrim (s : String) : String :=
  String.mk (((s.data.dropWhile isJsWhitespace).reverse.dropWhile isJsWhitespace).reverse)

/-- Lower-case one character, the ASCII fragment of JavaScript
`String.prototype.toLowerCase` that the UUID regex (carrying the `i` flag)
needs. -/
def lowerChar (c : Char) : Char :=
  if 'A' ≤ c && c ≤ 'Z' then Char.ofNat (c.toNat + 32) else c

/-- A row of the `polls` table, as inserted by `createPoll`:
`{ user_id, question, options }` plus the store-generated `id`. -/
structure Poll where
  id : String
  user_id : String
  question : String
  options : List String
deriving DecidableEq

/-- A row of the `votes` table, as inserted by `submitVote`:
`{ poll_id, user_id, option_index }`. -/
structure Vote where
  poll_id : String
  user_id : String
  option_index : Int
deriving DecidableEq

/-- The persistent store: the `polls` and `votes` tables. -/
structure Store where
  polls : List Poll
  votes : List Vote
deriving DecidableEq

/-- The value a mutating server action returns to its caller:
`{ error: null }` on success, `{ error: message }` on failure. -/
inductive ActionResult where
  | ok : ActionResult
  | err : String → ActionResult
deriving DecidableEq

/-- Lower-case hexadecimal digit, the `[0-9a-f]` class of the UUID regex
(the source regex carries the `i` flag and the input is lower-cased first). -/
def isHexLower (c : Char) : Bool :=
  ('0' ≤ c && c ≤ '9') || ('a' ≤ c && c ≤ 'f')

/-- Consume exactly `n` hexadecimal characters, the `[0-9a-f]{n}` part of
the UUID regex. -/
def hexRun : Nat → List Char → Option (List Char)
  | 0, cs => some cs
  | _ + 1, [] => none
  | n + 1, c :: cs => if isHexLower c then hexRun n cs else none

/-- Consume one character satisfying `p`, a single character class of the
UUID regex. -/
def expectClass (p : Char → Bool) : List Char → Option (List Char)
  | [] => none
  | c :: cs => if p c then some cs else none

/-- The anchored UUID test of `updatePoll` (source line 226): eight hex
characters, dash, four hex, dash, a version digit 1-5 and three hex, dash, a
variant character among 8, 9, a, b and three hex, dash, twelve hex;
case-insensitive, anchored at both ends. -/
def isUuid (s : String) : Bool :=
  let rest := do
    let cs ← hexRun 8 (s.data.map lowerChar)
    let cs ← expectClass (fun c => c == '-') cs
    let cs ← hexRun 4 cs
    let cs ← expectClass (fun c => c == '-') cs
    let cs ← expectClass (fun c => '1' ≤ c && c ≤ '5') cs
    let cs ← hexRun 3 cs
    let cs ← expectClass (fun c => c == '-') cs
    let cs ← expectClass (fun c => c == '8' || c == '9' || c == 'a' || c == 'b') cs
    let cs ← hexRun 3 cs
    let cs ← expectClass (fun c => c == '-') cs
    hexRun 12 cs
  match rest with
  | some [] => true
  | _ => false

/-- The option loop of `createPoll` (source lines 31-38) and `updatePoll`
(lines 216-223): for each option in order, reject whitespace-only content
first, then raw length above 200. -/
def checkOptions : List String → Option String
  | [] => none
  | o :: rest =>
    if (jsTrim o).length == 0 then some "All options must have content."
    else if o.length > 200 then some "Each option must be less than 200 characters."
    else checkOptions rest

/-- The input-validation block shared verbatim by `createPoll` (source lines
14-38) and `updatePoll` (lines 199-223), applied to the question and to the
already-filtered options list. Returns the first failing check, or `none`. -/
def pollInputError (question : String) (options : List String) : Option String :=
  if (jsTrim question).length == 0 then some "Poll question is required."
  else if question.length > 500 then some "Poll question must be less than 500 characters."
  else if options.length < 2 then some "Please provide at least two options."
  else if options.length > 10 then some "Maximum 10 options allowed."
  else checkOptions options

/-- The `formData.getAll("options").filter(Boolean)` step (source lines 11 and
196): empty strings are falsy in JavaScript and are dropped before any check. -/
def filterOptions (raw : List String) : List String :=
  raw.filter (fun o => !(o == ""))

/-- The `createPoll` server action (source lines 7-69). `newId` is the
identifier the store generates for the inserted row; the caller never sees it,
since the action returns only `{ error: null }`. -/
def createPoll (principal : Option String) (question : String)
    (rawOptions : List String) (s : Store) (newId : String) : ActionResult × Store :=
  let options := filterOptions rawOptions
  match pollInputError question options with
  | some e => (.err e, s)
  | none =>
    match principal with
    | none => (.err "You must be logged in to create a poll.", s)
    | some uid =>
      (.ok, { s with polls := s.polls ++
        [{ id := newId, user_id := uid, question := jsTrim question,
           options := options.map (fun o => jsTrim o) }] })

/-- The `getPollById` server action (source lines 90-113). It fetches the
current user (the `principal` argument) but the privacy check that would use
it is commented out, so the principal never influences the outcome. The
`.single()` fetch errors whenever the row count differs from one. -/
def getPollById (principal : Option String) (id : String) (s : Store) :
    Option Poll × Option String :=
  match s.polls.filter (fun p => p.id == id) with
  | [p] => (some p, none)
  | _ => (none, some "JSON object requested, multiple (or no) rows returned")

/-- The check phase of `submitVote` (source lines 116-149): authentication,
poll fetch via `.single()`, option-index bounds check, and the separate
existing-vote lookup (`.single()` on the `votes` table, whose row is non-null
exactly when one matching row exists). Returns the early-return error message,
or the authenticated user id cleared to proceed to the insert. -/
def submitVoteChecks (principal : Option String) (pollId : String)
    (optionIndex : Int) (s : Store) : Except String String :=
  match principal with
  | none => .error "You must be logged in to vote."
  | some uid =>
    match s.polls.filter (fun p => p.id == pollId) with
    | [poll] =>
      if optionIndex < 0 || (poll.options.length : Int) ≤ optionIndex then
        .error "Invalid option selected."
      else if (s.votes.filter (fun v => v.poll_id == pollId && v.user_id == uid)).length == 1 then
        .error "You have already voted on this poll."
      else .ok uid
    | _ => .error "Poll not found."

/-- The row the store records for a successful insert of `submitVote`
(source lines 151-157): the new vote appended to the `votes` table. -/
def insertVote (uid pollId : String) (optionIndex : Int) (s : Store) : Store :=
  { s with votes := s.votes ++
    [{ poll_id := pollId, user_id := uid, option_index := optionIndex }] }

/-- Modelled from the spec: the `votes` table schema exists in no executable
source file; the spec's store environment declares `a uniqueness constraint
on (poll_id, voter_id)`, and the repository README (`src/unnamed/part_000`,
votes table) declares the same `UNIQUE(poll_id, user_id)`. Under that
constraint the insert of source lines 151-157 is rejected for a duplicate
key with the store error message, which source line 159
(`if (error) return { error: error.message }`) hands back to the caller
verbatim. -/
def insertVoteUnique (uid pollId : String) (optionIndex : Int) (s : Store) :
    ActionResult × Store :=
  if (s.votes.filter (fun v => v.poll_id == pollId && v.user_id == uid)).length == 0 then
    (.ok, insertVote uid pollId optionIndex s)
  else
    (.err "duplicate key value violates unique constraint votes_poll_id_user_id_key", s)

/-- The `submitVote` server action (source lines 116-161) run to completion
with no interleaved request: the check phase followed, on success, by the
insert of lines 151-157 against the uniqueness-constrained votes table, any
insert error surfaced verbatim by line 159. -/
def submitVote (principal : Option String) (pollId : String) (optionIndex : Int)
    (s : Store) : ActionResult × Store :=
  match submitVoteChecks principal pollId optionIndex s with
  | .error e => (.err e, s)
  | .ok uid => insertVoteUnique uid pollId optionIndex s

/-- Two concurrent `submitVote` calls interleaved so that both complete their
check phase against the same initial store before either insert commits (the
schedule check-A, check-B, insert-A, insert-B, available because every store
call is a separate await and no lock is held between the existing-vote lookup
of lines 140-145 and the insert of line 151), each insert running against the
uniqueness-constrained votes table with its outcome surfaced exactly as
source line 159 does. -/
def submitVoteRacedUnique (p1 p2 : Option String) (pollId1 pollId2 : String)
    (i1 i2 : Int) (s : Store) : ActionResult × ActionResult × Store :=
  match submitVoteChecks p1 pollId1 i1 s, submitVoteChecks p2 pollId2 i2 s with
  | .error e1, .error e2 => (.err e1, .err e2, s)
  | .error e1, .ok u2 =>
    let r2 := insertVoteUnique u2 pollId2 i2 s
    (.err e1, r2.1, r2.2)
  | .ok u1, .error e2 =>
    let r1 := insertVoteUnique u1 pollId1 i1 s
    (r1.1, .err e2, r1.2)
  | .ok u1, .ok u2 =>
    let r1 := insertVoteUnique u1 pollId1 i1 s
    let r2 := insertVoteUnique u2 pollId2 i2 r1.2
    (r1.1, r2.1, r2.2)

/-- The `deletePoll` server action (source lines 164-189): require a session
user, then an unconditional-looking `delete().eq("id", id).eq("user_id",
user.id)`. A delete matching zero rows is not a store error, so the action
reports success whether or not anything was deleted. -/
def deletePoll (principal : Option String) (id : String) (s : Store) :
    ActionResult × Store :=
  match principal with
  | none => (.err "You must be logged in to delete a poll.", s)
  | some uid =>
    (.ok, { s with polls := s.polls.filter (fun p => !(p.id == id && p.user_id == uid)) })

/-- The `updatePoll` server action (source lines 192-259): the shared
input-validation block, then the UUID-format check on `pollId`, then the
session-user check, then `update(...).eq("id", pollId).eq("user_id",
user.id)`. An update matching zero rows is not a store error, so the action
reports success whether or not any row changed. -/
def updatePoll (principal : Option String) (pollId : String) (question : String)
    (rawOptions : List String) (s : Store) : ActionResult × Store :=
  let options := filterOptions rawOptions
  match pollInputError question options with
  | some e => (.err e, s)
  | none =>
    if !isUuid pollId then (.err "Invalid poll ID format.", s)
    else
      match principal with
      | none => (.err "You must be logged in to update a poll.", s)
      | some uid =>
        (.ok, { s with polls := s.polls.map (fun p =>
          if p.id == pollId && p.user_id == uid then
            { p with
              question := jsTrim question,
              options := options.map (fun o => jsTrim o) }
          else p) })

/-- A poll with a store-format (UUID) identifier, owned by the principal
`alice`, used as the concrete fixture for the closed theorems below. -/
def cPoll : Poll :=
  { id := "11111111-1111-1111-8111-111111111111", user_id := "alice",
    question := "Q", options := ["a", "b"] }

/-- A concrete store holding `cPoll` and no votes. -/
def cStore : Store := { polls := [cPoll], votes := [] }

/-- A concrete store holding `cPoll` and one vote already cast on it by the
principal `bob`. -/
def cStoreVoted : Store :=
  { polls := [cPoll],
    votes := [{ poll_id := cPoll.id, user_id := "bob", option_index := 0 }] }

/-- An option of raw length 201 whose trimmed length is 200: two hundred
letters followed by one trailing space. -/
def longOpt : String := String.mk (List.replicate 200 'b' ++ [' '])

/-- A question of raw length 501 whose trimmed length is 500: five hundred
letters followed by one trailing space. -/
def longQuestion : String := String.mk (List.replicate 500 'a' ++ [' '])

/-- The two error messages the option loop can produce. -/
theorem checkOptions_messages (l : List String) (e : String)
    (h : checkOptions l = some e) :
    e = "All options must have content." ∨
    e = "Each option must be less than 200 characters." := by
  induction l with
  | nil => simp [checkOptions] at h
  | cons o rest ih =>
    unfold checkOptions at h
    split_ifs at h with h1 h2
    · exact Or.inl (Option.some.inj h).symm
    · exact Or.inr (Option.some.inj h).symm
    · exact ih h

/-- The six error messages the shared validation block can produce. -/
theorem pollInputError_messages (q : String) (l : List String) (e : String)
    (h : pollInputError q l = some e) :
    e = "Poll question is required." ∨
    e = "Poll question must be less than 500 characters." ∨
    e = "Please provide at least two options." ∨
    e = "Maximum 10 options allowed." ∨
    e = "All options must have content." ∨
    e = "Each option must be less than 200 characters." := by
  unfold pollInputError at h
  split_ifs at h with h1 h2 h3 h4
  · exact Or.inl (Option.some.inj h).symm
  · exact Or.inr (Or.inl (Option.some.inj h).symm)
  · exact Or.inr (Or.inr (Or.inl (Option.some.inj h).symm))
  · exact Or.inr (Or.inr (Or.inr (Or.inl (Option.some.inj h).symm)))
  · rcases checkOptions_messages l e h with h5 | h5
    · exact Or.inr (Or.inr (Or.inr (Or.inr (Or.inl h5))))
    · exact Or.inr (Or.inr (Or.inr (Or.inr (Or.inr h5))))

/-- The caller-visible result of `createPoll`, as a function of the shared
validation outcome and the principal. -/
theorem createPoll_result (principal : Option String) (q : String)
    (raw : List String) (s : Store) (nid : String) :
    (createPoll principal q raw s nid).1
      = (match pollInputError q (filterOptions raw) with
         | some e => .err e
         | none =>
           match principal with
           | none => .err "You must be logged in to create a poll."
           | some _ => .ok) := by
  unfold createPoll
  rcases h : pollInputError q (filterOptions raw) with _ | e
  · rcases principal with _ | uid <;> simp [h]
  · simp [h]

/-- The caller-visible result of `updatePoll`, as a function of the shared
validation outcome, the UUID test, and the principal. -/
theorem updatePoll_result (principal : Option String) (pid q : String)
    (raw : List String) (s : Store) :
    (updatePoll principal pid q raw s).1
      = (match pollInputError q (filterOptions raw) with
         | some e => .err e
         | none =>
           if !isUuid pid then .err "Invalid poll ID format."
           else
             match principal with
             | none => .err "You must be logged in to update a poll."
             | some _ => .ok) := by
  unfold updatePoll
  rcases h : pollInputError q (filterOptions raw) with _ | e
  · rcases hu : isUuid pid with _ | _
    · simp [h, hu]
    · rcases principal with _ | uid <;> simp [h, hu]
  · simp [h]

/-- The four error messages the check phase of `submitVote` can produce. -/
theorem submitVoteChecks_messages (principal : Option String) (pollId : String)
    (idx : Int) (s : Store) (e : String)
    (h : submitVoteChecks principal pollId idx s = .error e) :
    e = "You must be logged in to vote." ∨ e = "Poll not found." ∨
    e = "Invalid option selected." ∨ e = "You have already voted on this poll." := by
  unfold submitVoteChecks at h
  split at h
  · exact Or.inl (Except.error.inj h).symm
  · split at h
    · split_ifs at h with h1 h2
      · exact Or.inr (Or.inr (Or.inl (Except.error.inj h).symm))
      · exact Or.inr (Or.inr (Or.inr (Except.error.inj h).symm))
    · exact Or.inr (Or.inl (Except.error.inj h).symm)

/-- The check phase of `submitVote` clears the caller to insert when the
principal is present, the poll exists, the index is in range, and no vote for
the pair is recorded yet. -/
theorem submitVoteChecks_ok (uid pollId : String) (idx : Int) (s : Store)
    (poll : Poll)
    (hpoll : s.polls.filter (fun p => p.id == pollId) = [poll])
    (hidx : 0 ≤ idx ∧ idx < (poll.options.length : Int))
    (hnew : s.votes.filter (fun v => v.poll_id == pollId && v.user_id == uid) = []) :
    submitVoteChecks (some uid) pollId idx s = .ok uid := by
  have hcond : (decide (idx < 0) || decide ((poll.options.length : Int) ≤ idx)) = false := by
    simp only [Bool.or_eq_false_iff, decide_eq_false_iff_not, not_lt]
    omega
  simp only [submitVoteChecks, hpoll, hcond, hnew]
  rfl

/-- With every option nonempty after trimming, the option loop rejects with
the length message exactly when some option has raw length above 200. -/
theorem checkOptions_long_iff (l : List String)
    (hne : ∀ o ∈ l, (jsTrim o).length ≠ 0) :
    (checkOptions l = some "Each option must be less than 200 characters.")
      ↔ ∃ o ∈ l, 200 < o.length := by
  induction l with
  | nil => simp [checkOptions]
  | cons o rest ih =>
    have ho := hne o (by simp)
    have hrest : ∀ x ∈ rest, (jsTrim x).length ≠ 0 := fun x hx => hne x (by simp [hx])
    unfold checkOptions
    rw [if_neg (by simpa using ho)]
    by_cases hlen : o.length > 200
    · rw [if_pos hlen]
      constructor
      · intro _; exact ⟨o, by simp, hlen⟩
      · intro _; rfl
    · rw [if_neg hlen]
      rw [ih hrest]
      constructor
      · rintro ⟨x, hx, hxl⟩; exact ⟨x, by simp [hx], hxl⟩
      · rintro ⟨x, hx, hxl⟩
        rcases List.mem_cons.mp hx with rfl | hx2
        · exact absurd hxl (by omega)
        · exact ⟨x, hx2, hxl⟩

/-- With every option of raw length at most 200, the option loop rejects with
the content message exactly when some option is empty after trimming. -/
theorem checkOptions_empty_iff (l : List String)
    (hshort : ∀ o ∈ l, o.length ≤ 200) :
    (checkOptions l = some "All options must have content.")
      ↔ ∃ o ∈ l, (jsTrim o).length = 0 := by
  induction l with
  | nil => simp [checkOptions]
  | cons o rest ih =>
    have ho := hshort o (by simp)
    have hrest : ∀ x ∈ rest, x.length ≤ 200 := fun x hx => hshort x (by simp [hx])
    unfold checkOptions
    by_cases hem : (jsTrim o).length = 0
    · rw [if_pos (by simpa using hem)]
      constructor
      · intro _; exact ⟨o, by simp, hem⟩
      · intro _; rfl
    · rw [if_neg (by simpa using hem)]
      rw [if_neg (by omega)]
      rw [ih hrest]
      constructor
      · rintro ⟨x, hx, hxl⟩; exact ⟨x, by simp [hx], hxl⟩
      · rintro ⟨x, hx, hxl⟩
        rcases List.mem_cons.mp hx with rfl | hx2
        · exact absurd hxl hem
        · exact ⟨x, hx2, hxl⟩

/-- For any message other than the authentication failure, `createPoll` fails
with it exactly when the shared validation block produces it. -/
theorem createPoll_err_iff (principal : Option String) (q : String)
    (raw : List String) (s : Store) (nid : String) (m : String)
    (hm : m ≠ "You must be logged in to create a poll.") :
    ((createPoll principal q raw s nid).1 = .err m)
      ↔ pollInputError q (filterOptions raw) = some m := by
  rw [createPoll_result]
  rcases hp : pollInputError q (filterOptions raw) with _ | e
  · rcases principal with _ | uid
    · constructor
      · intro hc; exact absurd (ActionResult.err.inj hc).symm hm
      · intro hc; exact Option.noConfusion hc
    · constructor
      · intro hc; exact ActionResult.noConfusion hc
      · intro hc; exact Option.noConfusion hc
  · constructor
    · intro hc; rw [ActionResult.err.inj hc]
    · intro hc; rw [Option.some.inj hc]

/-- For any message other than the authentication failure and the identifier
failure, `updatePoll` fails with it exactly when the shared validation block
produces it. -/
theorem updatePoll_err_iff (principal : Option String) (pid q : String)
    (raw : List String) (s : Store) (m : String)
    (hm1 : m ≠ "You must be logged in to update a poll.")
    (hm2 : m ≠ "Invalid poll ID format.") :
    ((updatePoll principal pid q raw s).1 = .err m)
      ↔ pollInputError q (filterOptions raw) = some m := by
  rw [updatePoll_result]
  rcases hp : pollInputError q (filterOptions raw) with _ | e
  · rcases hu : isUuid pid with _ | _
    · simp only [Bool.not_false, if_true]
      constructor
      · intro hc; exact absurd (ActionResult.err.inj hc).symm hm2
      · intro hc; exact Option.noConfusion hc
    · simp only [Bool.not_true, Bool.false_eq_true, if_false]
      rcases principal with _ | uid
      · constructor
        · intro hc; exact absurd (ActionResult.err.inj hc).symm hm1
        · intro hc; exact Option.noConfusion hc
      · constructor
        · intro hc; exact ActionResult.noConfusion hc
        · intro hc; exact Option.noConfusion hc
  · constructor
    · intro hc; rw [ActionResult.err.inj hc]
    · intro hc; rw [Option.some.inj hc]

/-- With a question nonempty after trimming, the validation block produces the
question-length message exactly when the raw, untrimmed question length
exceeds 500. -/
theorem pollInputError_q500_iff (q : String) (l : List String)
    (hq : (jsTrim q).length ≠ 0) :
    (pollInputError q l = some "Poll question must be less than 500 characters.")
      ↔ 500 < q.length := by
  unfold pollInputError
  rw [if_neg (by simpa using hq)]
  by_cases h5 : q.length > 500
  · rw [if_pos h5]
    constructor
    · intro _; exact h5
    · intro _; rfl
  · rw [if_neg h5]
    constructor
    · intro hc
      exfalso
      split_ifs at hc
      · exact absurd (Option.some.inj hc) (by decide)
      · exact absurd (Option.some.inj hc) (by decide)
      · rcases checkOptions_messages l _ hc with h | h <;> exact absurd h (by decide)
    · intro hc; exact absurd hc h5

/-- With a valid question, the validation block produces the too-few-options
message exactly when fewer than two options survive the empty-string filter
(whitespace-only options survive it). -/
theorem pollInputError_few_iff (q : String) (l : List String)
    (hq : (jsTrim q).length ≠ 0) (h5 : q.length ≤ 500) :
    (pollInputError q l = some "Please provide at least two options.")
      ↔ l.length < 2 := by
  unfold pollInputError
  rw [if_neg (by simpa using hq), if_neg (by omega)]
  by_cases h2 : l.length < 2
  · rw [if_pos h2]
    constructor
    · intro _; exact h2
    · intro _; rfl
  · rw [if_neg h2]
    constructor
    · intro hc
      exfalso
      split_ifs at hc
      · exact absurd (Option.some.inj hc) (by decide)
      · rcases checkOptions_messages l _ hc with h | h <;> exact absurd h (by decide)
    · intro hc; exact absurd hc h2

/-- With a valid question, an in-range option count and no whitespace-only
option, the validation block produces the option-length message exactly when
some option has raw, untrimmed length above 200. -/
theorem pollInputError_opt200_iff (q : String) (l : List String)
    (hq : (jsTrim q).length ≠ 0) (h5 : q.length ≤ 500)
    (h2 : 2 ≤ l.length) (h10 : l.length ≤ 10)
    (hne : ∀ o ∈ l, (jsTrim o).length ≠ 0) :
    (pollInputError q l = some "Each option must be less than 200 characters.")
      ↔ ∃ o ∈ l, 200 < o.length := by
  unfold pollInputError
  rw [if_neg (by simpa using hq), if_neg (by omega), if_neg (by omega), if_neg (by omega)]
  exact checkOptions_long_iff l hne

/-- With a valid question, an in-range option count and no overlong option,
the validation block produces the empty-option message exactly when some
surviving option is empty after trimming. -/
theorem pollInputError_empty_iff (q : String) (l : List String)
    (hq : (jsTrim q).length ≠ 0) (h5 : q.length ≤ 500)
    (h2 : 2 ≤ l.length) (h10 : l.length ≤ 10)
    (hshort : ∀ o ∈ l, o.length ≤ 200) :
    (pollInputError q l = some "All options must have content.")
      ↔ ∃ o ∈ l, (jsTrim o).length = 0 := by
  unfold pollInputError
  rw [if_neg (by simpa using hq), if_neg (by omega), if_neg (by omega), if_neg (by omega)]
  exact checkOptions_empty_iff l hshort

/-- An update or delete whose conditional write matches no row leaves the
store unchanged and still reports success: `deletePoll` for a principal and
identifier matching no poll. -/
theorem deletePoll_nonmatching (uid id : String) (s : Store)
    (h : ∀ p ∈ s.polls, (p.id == id && p.user_id == uid) = false) :
    deletePoll (some uid) id s = (.ok, s) := by
  have hf : s.polls.filter (fun p => !(p.id == id && p.user_id == uid)) = s.polls := by
    apply List.filter_eq_self.mpr
    intro p hp
    simp [h p hp]
  simp only [deletePoll, hf]

/-- An update whose conditional write matches no row leaves the store
unchanged and still reports success: `updatePoll` for a principal and
identifier matching no poll. -/
theorem updatePoll_nonmatching (uid pollId question : String) (raw : List String)
    (s : Store)
    (hval : pollInputError question (filterOptions raw) = none)
    (huuid : isUuid pollId = true)
    (h : ∀ p ∈ s.polls, (p.id == pollId && p.user_id == uid) = false) :
    updatePoll (some uid) pollId question raw s = (.ok, s) := by
  simp only [updatePoll, hval, huuid, Bool.not_true, Bool.false_eq_true, if_false]
  have hmap : s.polls.map (fun p =>
      if p.id == pollId && p.user_id == uid then
        { p with
          question := jsTrim question,
          options := (filterOptions raw).map (fun o => jsTrim o) }
      else p) = s.polls := by
    have hc : ∀ p ∈ s.polls, (fun p =>
        if p.id == pollId && p.user_id == uid then
          { p with
            question := jsTrim question,
            options := (filterOptions raw).map (fun o => jsTrim o) }
        else p) p = id p := by
      intro p hp
      simp [h p hp]
    rw [List.map_congr_left hc, List.map_id]
  rw [hmap]

/-- C1 counterexample: two concurrent submitVote calls for the same
(pollId, voterId) pair, interleaved so that both existence checks complete
before either insert against the uniqueness-constrained votes table, yield
one success and a second result that is neither a success nor the
AlreadyVoted failure the claim requires — the check-then-insert structure
lets both calls pass the check, and the losing insert surfaces the raw store
rejection. -/
theorem C1_raced_not_already_voted :
    (submitVoteRacedUnique (some "bob") (some "bob") cPoll.id cPoll.id 0 0 cStore).1
      = ActionResult.ok ∧
    (submitVoteRacedUnique (some "bob") (some "bob") cPoll.id cPoll.id 0 0 cStore).2.1
      ≠ ActionResult.err "You have already voted on this poll." ∧
    (submitVoteRacedUnique (some "bob") (some "bob") cPoll.id cPoll.id 0 0 cStore).2.1
      ≠ ActionResult.ok := by
  decide

/-- C1 (amended): submitVote records a vote through a separate existence
check followed by an insert, not a single atomic uniqueness-enforced insert.
Run sequentially, a first call for a fresh (pollId, voterId) pair succeeds
and inserts the vote and an immediately following call for the same pair
fails with the AlreadyVoted message; run as two interleaved concurrent calls
whose existence checks both complete before either insert, the store
uniqueness constraint still admits exactly one success and one recorded
vote, but the losing call receives the raw store error, not AlreadyVoted. -/
theorem C1_check_then_insert_amended (uid pollId : String) (idx : Int)
    (s : Store) (poll : Poll)
    (hpoll : s.polls.filter (fun p => p.id == pollId) = [poll])
    (hidx : 0 ≤ idx ∧ idx < (poll.options.length : Int))
    (hnew : s.votes.filter (fun v => v.poll_id == pollId && v.user_id == uid) = []) :
    submitVote (some uid) pollId idx s = (.ok, insertVote uid pollId idx s) ∧
    (submitVote (some uid) pollId idx (insertVote uid pollId idx s)).1
      = .err "You have already voted on this poll." ∧
    submitVoteRacedUnique (some uid) (some uid) pollId pollId idx idx s
      = (.ok,
         .err "duplicate key value violates unique constraint votes_poll_id_user_id_key",
         insertVote uid pollId idx s) := by
  have hck := submitVoteChecks_ok uid pollId idx s poll hpoll hidx hnew
  have hone : ((insertVote uid pollId idx s).votes.filter
      (fun v => v.poll_id == pollId && v.user_id == uid)).length = 1 := by
    simp [insertVote, List.filter_append, hnew]
  refine ⟨?_, ?_, ?_⟩
  · simp only [submitVote, hck, insertVoteUnique, hnew]
    rfl
  · have hcond : (decide (idx < 0) || decide ((poll.options.length : Int) ≤ idx)) = false := by
      simp only [Bool.or_eq_false_iff, decide_eq_false_iff_not, not_lt]
      omega
    have hpolls : (insertVote uid pollId idx s).polls = s.polls := rfl
    simp only [submitVote, submitVoteChecks, insertVote, hpolls, hpoll, hcond,
      List.filter_append, hnew]
    simp
  · simp only [submitVoteRacedUnique, hck, insertVoteUnique, hnew, hone]
    simp
    exact ⟨{ poll_id := pollId, user_id := uid, option_index := idx },
      by simp [insertVote], rfl, rfl⟩

/-- C1 witness: the amended statement applied at concrete inputs, every
hypothesis discharged by evaluation. -/
theorem C1_check_then_insert_amended_witness :
    submitVote (some "bob") cPoll.id 0 cStore
      = (.ok, insertVote "bob" cPoll.id 0 cStore) ∧
    (submitVote (some "bob") cPoll.id 0 (insertVote "bob" cPoll.id 0 cStore)).1
      = .err "You have already voted on this poll." ∧
    submitVoteRacedUnique (some "bob") (some "bob") cPoll.id cPoll.id 0 0 cStore
      = (.ok,
         .err "duplicate key value violates unique constraint votes_poll_id_user_id_key",
         insertVote "bob" cPoll.id 0 cStore) :=
  C1_check_then_insert_amended "bob" cPoll.id 0 cStore cPoll
    (by decide) (by decide) (by decide)

/-- C2 counterexample: a principal other than the owner calling updatePoll
and deletePoll on the owner poll gets a success result (error null) and the
store is unchanged — no Forbidden error is reported for the zero-row
conditional write. -/
theorem C2_nonowner_reports_success :
    updatePoll (some "bob") cPoll.id "New question" ["x", "y"] cStore
      = (ActionResult.ok, cStore) ∧
    deletePoll (some "bob") cPoll.id cStore = (ActionResult.ok, cStore) := by
  decide

/-- C2 (amended): the conditional write does confine mutation to the owner —
update and delete by a non-owner match zero rows and leave the store
unchanged — but zero rows affected is reported as success (error null), not
as a Forbidden error; the same calls by the owner with a valid payload also
report success. -/
theorem C2_conditional_write_amended (p1 p2 pollId question : String)
    (raw : List String) (s : Store)
    (hne : p1 ≠ p2)
    (hown : ∀ p ∈ s.polls, p.id = pollId → p.user_id = p1)
    (hval : pollInputError question (filterOptions raw) = none)
    (huuid : isUuid pollId = true) :
    updatePoll (some p2) pollId question raw s = (.ok, s) ∧
    deletePoll (some p2) pollId s = (.ok, s) ∧
    (updatePoll (some p1) pollId question raw s).1 = .ok ∧
    (deletePoll (some p1) pollId s).1 = .ok := by
  have hmiss : ∀ p ∈ s.polls, (p.id == pollId && p.user_id == p2) = false := by
    intro p hp
    by_cases hid : p.id = pollId
    · have ho := hown p hp hid
      simp [ho, hne, Ne.symm]
    · simp [hid]
  refine ⟨updatePoll_nonmatching p2 pollId question raw s hval huuid hmiss,
          deletePoll_nonmatching p2 pollId s hmiss, ?_, ?_⟩
  · rw [updatePoll_result]
    simp [hval, huuid]
  · rfl

/-- C2 witness: the amended statement applied at concrete inputs, every
hypothesis discharged by evaluation. -/
theorem C2_conditional_write_amended_witness :
    updatePoll (some "bob") cPoll.id "New question" ["x", "y"] cStore
      = (.ok, cStore) ∧
    deletePoll (some "bob") cPoll.id cStore = (.ok, cStore) ∧
    (updatePoll (some "alice") cPoll.id "New question" ["x", "y"] cStore).1 = .ok ∧
    (deletePoll (some "alice") cPoll.id cStore).1 = .ok :=
  C2_conditional_write_amended "alice" "bob" cPoll.id "New question" ["x", "y"]
    cStore (by decide) (by decide) (by decide) (by decide)

/-- C3 counterexample: when two interleaved submitVote calls for the same
pair both pass the existence check and the spec-modelled uniqueness
constraint rejects the second insert, the caller receives the store error
message verbatim, not the AlreadyVoted message. -/
theorem C3_store_rejection_surfaces_raw_message :
    (submitVoteRacedUnique (some "bob") (some "bob") cPoll.id cPoll.id 0 0 cStore).1
      = ActionResult.ok ∧
    (submitVoteRacedUnique (some "bob") (some "bob") cPoll.id cPoll.id 0 0 cStore).2.1
      = .err "duplicate key value violates unique constraint votes_poll_id_user_id_key" ∧
    "duplicate key value violates unique constraint votes_poll_id_user_id_key"
      ≠ "You have already voted on this poll." := by
  decide

/-- C3 (amended): a duplicate pair detected by the pre-insert existence check
yields the AlreadyVoted message and leaves the store unchanged; but a
uniqueness rejection coming from the store itself is surfaced verbatim (see
the counterexample), because the insert error path returns the raw store
message. -/
theorem C3_already_voted_amended (uid pollId : String) (idx : Int) (s : Store)
    (poll : Poll)
    (hpoll : s.polls.filter (fun p => p.id == pollId) = [poll])
    (hidx : 0 ≤ idx ∧ idx < (poll.options.length : Int))
    (hdup : (s.votes.filter (fun v => v.poll_id == pollId && v.user_id == uid)).length = 1) :
    submitVote (some uid) pollId idx s
      = (.err "You have already voted on this poll.", s) := by
  have hcond : (decide (idx < 0) || decide ((poll.options.length : Int) ≤ idx)) = false := by
    simp only [Bool.or_eq_false_iff, decide_eq_false_iff_not, not_lt]
    omega
  simp only [submitVote, submitVoteChecks, hpoll, hcond, hdup]
  rfl

/-- C3 witness: the amended statement applied at concrete inputs, every
hypothesis discharged by evaluation. -/
theorem C3_already_voted_amended_witness :
    submitVote (some "bob") cPoll.id 1 cStoreVoted
      = (.err "You have already voted on this poll.", cStoreVoted) :=
  C3_already_voted_amended "bob" cPoll.id 1 cStoreVoted cPoll
    (by decide) (by decide) (by decide)

/-- C4 counterexample: createPoll with no principal and an invalid payload
returns the payload-validation error, not the Unauthenticated error — the
payload checks run before the principal check. -/
theorem C4_validation_precedes_auth :
    createPoll none "" ["a", "b"] cStore "new-id"
      = (.err "Poll question is required.", cStore) ∧
    ActionResult.err "Poll question is required."
      ≠ ActionResult.err "You must be logged in to create a poll." := by
  decide

/-- C4 (amended): every mutating operation does require a principal, but only
submitVote and deletePoll check it first; createPoll and updatePoll run
payload validation (and, for updatePoll, the identifier check) before the
principal check, so with no principal they fail Unauthenticated exactly when
those earlier checks pass. -/
theorem C4_principal_required_amended :
    (∀ id s, deletePoll none id s
        = (.err "You must be logged in to delete a poll.", s)) ∧
    (∀ pollId idx s, submitVote none pollId idx s
        = (.err "You must be logged in to vote.", s)) ∧
    (∀ q raw s nid, pollInputError q (filterOptions raw) = none →
        createPoll none q raw s nid
          = (.err "You must be logged in to create a poll.", s)) ∧
    (∀ pollId q raw s, pollInputError q (filterOptions raw) = none →
        isUuid pollId = true →
        updatePoll none pollId q raw s
          = (.err "You must be logged in to update a poll.", s)) := by
  refine ⟨fun id s => rfl, fun pollId idx s => rfl, ?_, ?_⟩
  · intro q raw s nid hval
    simp only [createPoll, hval]
  · intro pollId q raw s hval huuid
    simp only [updatePoll, hval, huuid, Bool.not_true, Bool.false_eq_true, if_false]

/-- C4 witness: the amended statement applied at concrete inputs, every
hypothesis discharged by evaluation. -/
theorem C4_principal_required_amended_witness :
    deletePoll none "x" cStore
      = (.err "You must be logged in to delete a poll.", cStore) ∧
    submitVote none "x" 0 cStore = (.err "You must be logged in to vote.", cStore) ∧
    createPoll none "Q" ["a", "b"] cStore "new-id"
      = (.err "You must be logged in to create a poll.", cStore) ∧
    updatePoll none cPoll.id "Q" ["a", "b"] cStore
      = (.err "You must be logged in to update a poll.", cStore) :=
  ⟨C4_principal_required_amended.1 "x" cStore,
   C4_principal_required_amended.2.1 "x" 0 cStore,
   C4_principal_required_amended.2.2.1 "Q" ["a", "b"] cStore "new-id" (by decide),
   C4_principal_required_amended.2.2.2 cPoll.id "Q" ["a", "b"] cStore (by decide) (by decide)⟩

/-- C5 counterexample: operations other than updatePoll accept a malformed
poll identifier and hand it to the store — deletePoll reports success,
submitVote reports the store miss, getPollById reports the store error, and
none of them produces the MalformedId message. -/
theorem C5_no_id_validation_outside_update :
    deletePoll (some "bob") "not-a-uuid" cStore = (ActionResult.ok, cStore) ∧
    (submitVote (some "bob") "not-a-uuid" 0 cStore).1 = .err "Poll not found." ∧
    (getPollById none "not-a-uuid" cStore).2
      = some "JSON object requested, multiple (or no) rows returned" := by
  decide

/-- C5 (amended): only updatePoll validates the poll identifier against the
canonical 36-character UUID pattern, failing with the MalformedId message
(and only after payload validation); getPollById, deletePoll and submitVote
perform no identifier-format check and can never produce that message. -/
theorem C5_uuid_check_amended :
    (∀ principal pollId question raw s,
        pollInputError question (filterOptions raw) = none →
        isUuid pollId = false →
        updatePoll principal pollId question raw s
          = (.err "Invalid poll ID format.", s)) ∧
    (∀ principal id s,
        (getPollById principal id s).2 ≠ some "Invalid poll ID format.") ∧
    (∀ principal id s e, (deletePoll principal id s).1 = .err e →
        e ≠ "Invalid poll ID format.") ∧
    (∀ principal pollId idx s e, (submitVote principal pollId idx s).1 = .err e →
        e ≠ "Invalid poll ID format.") := by
  refine ⟨?_, ?_, ?_, ?_⟩
  · intro principal pollId question raw s hval huuid
    simp only [updatePoll, hval, huuid, Bool.not_false, if_true]
  · intro principal id s
    unfold getPollById
    split
    · simp
    · decide
  · intro principal id s e h
    rcases principal with _ | uid
    · have he : e = "You must be logged in to delete a poll." :=
        (ActionResult.err.inj h).symm
      subst he; decide
    · exact absurd h (by simp [deletePoll])
  · intro principal pollId idx s e h
    unfold submitVote at h
    rcases hc : submitVoteChecks principal pollId idx s with e2 | uid
    · rw [hc] at h
      have he : e2 = e := ActionResult.err.inj h
      subst he
      rcases submitVoteChecks_messages principal pollId idx s e2 hc
        with h1 | h1 | h1 | h1 <;> (subst h1; decide)
    · rw [hc] at h
      simp only [insertVoteUnique] at h
      by_cases hz : ((s.votes.filter
          (fun v => v.poll_id == pollId && v.user_id == uid)).length == 0) = true
      · rw [if_pos hz] at h
        exact absurd h (by simp)
      · rw [if_neg hz] at h
        have he : e = "duplicate key value violates unique constraint votes_poll_id_user_id_key" :=
          (ActionResult.err.inj h).symm
        subst he
        decide

/-- C5 witness: the amended statement applied at concrete inputs, every
hypothesis discharged by evaluation. -/
theorem C5_uuid_check_amended_witness :
    updatePoll (some "u") "not-a-uuid" "Q" ["a", "b"] cStore
      = (.err "Invalid poll ID format.", cStore) ∧
    (getPollById none "not-a-uuid" cStore).2 ≠ some "Invalid poll ID format." ∧
    "You must be logged in to delete a poll." ≠ "Invalid poll ID format." ∧
    "You must be logged in to vote." ≠ "Invalid poll ID format." :=
  ⟨C5_uuid_check_amended.1 (some "u") "not-a-uuid" "Q" ["a", "b"] cStore
     (by decide) (by decide),
   C5_uuid_check_amended.2.1 none "not-a-uuid" cStore,
   C5_uuid_check_amended.2.2.1 none "x" cStore
     "You must be logged in to delete a poll." (by decide),
   C5_uuid_check_amended.2.2.2 none "x" 0 cStore
     "You must be logged in to vote." (by decide)⟩

/-- C6 counterexample: a question whose trimmed length is 500 and an option
whose trimmed length is 200 still fail the length checks, because the code
measures the raw, untrimmed length. -/
theorem C6_raw_length_counterexample :
    (jsTrim longQuestion).length ≤ 500 ∧
    (createPoll (some "u") longQuestion ["a", "b"] cStore "new-id").1
      = .err "Poll question must be less than 500 characters." ∧
    (jsTrim longOpt).length ≤ 200 ∧
    (createPoll (some "u") "Q" ["a", longOpt] cStore "new-id").1
      = .err "Each option must be less than 200 characters." := by
  decide

/-- C6 (amended): the length limits are judged on the raw, untrimmed text —
given a question nonempty after trimming, createPoll and updatePoll fail
QuestionTooLong exactly when the untrimmed question length exceeds 500, and
with an otherwise valid payload both fail OptionTooLong exactly when some
surviving option has untrimmed length above 200. -/
theorem C6_raw_length_amended (principal : Option String) (pid q : String)
    (raw : List String) (s : Store) (nid : String)
    (hq : (jsTrim q).length ≠ 0) :
    (((createPoll principal q raw s nid).1
        = .err "Poll question must be less than 500 characters.")
      ↔ 500 < q.length) ∧
    (((updatePoll principal pid q raw s).1
        = .err "Poll question must be less than 500 characters.")
      ↔ 500 < q.length) ∧
    ((q.length ≤ 500 ∧ 2 ≤ (filterOptions raw).length ∧
        (filterOptions raw).length ≤ 10 ∧
        ∀ o ∈ filterOptions raw, (jsTrim o).length ≠ 0) →
      ((((createPoll principal q raw s nid).1
          = .err "Each option must be less than 200 characters.")
        ↔ ∃ o ∈ filterOptions raw, 200 < o.length) ∧
       (((updatePoll principal pid q raw s).1
          = .err "Each option must be less than 200 characters.")
        ↔ ∃ o ∈ filterOptions raw, 200 < o.length))) := by
  refine ⟨?_, ?_, ?_⟩
  · rw [createPoll_err_iff _ _ _ _ _ _ (by decide)]
    exact pollInputError_q500_iff q _ hq
  · rw [updatePoll_err_iff _ _ _ _ _ _ (by decide) (by decide)]
    exact pollInputError_q500_iff q _ hq
  · rintro ⟨h5, h2, h10, hne⟩
    constructor
    · rw [createPoll_err_iff _ _ _ _ _ _ (by decide)]
      exact pollInputError_opt200_iff q _ hq h5 h2 h10 hne
    · rw [updatePoll_err_iff _ _ _ _ _ _ (by decide) (by decide)]
      exact pollInputError_opt200_iff q _ hq h5 h2 h10 hne

/-- C6 witness: the amended statement applied at concrete inputs, the
hypothesis discharged by evaluation. -/
theorem C6_raw_length_amended_witness :
    ((createPoll (some "u") "Q" ["a", "b"] cStore "new-id").1
        = .err "Poll question must be less than 500 characters.")
      ↔ 500 < ("Q" : String).length :=
  (C6_raw_length_amended (some "u") cPoll.id "Q" ["a", "b"] cStore "new-id"
    (by decide)).1

/-- C7 counterexample: with options [a, space] — fewer than two options
non-empty after trimming — the code fails EmptyOption, not TooFewOptions;
and with options [a, b, empty string] — at least two options, one of them
empty before trimming — the code silently drops the empty string and
succeeds instead of failing EmptyOption. -/
theorem C7_empty_option_counterexample :
    (createPoll (some "u") "Q" ["a", " "] cStore "new-id").1
      = .err "All options must have content." ∧
    (createPoll (some "u") "Q" ["a", "b", ""] cStore "new-id2").1 = .ok := by
  decide

/-- C7 (amended): options that are empty strings are dropped before any
check; createPoll and updatePoll fail TooFewOptions exactly when fewer than
two options survive the filter (whitespace-only options survive and count),
and with a surviving count in range and no overlong option, both fail
EmptyOption exactly when some surviving option is empty after trimming. -/
theorem C7_option_filtering_amended (principal : Option String) (pid q : String)
    (raw : List String) (s : Store) (nid : String)
    (hq : (jsTrim q).length ≠ 0) (h5 : q.length ≤ 500) :
    (((createPoll principal q raw s nid).1
        = .err "Please provide at least two options.")
      ↔ (filterOptions raw).length < 2) ∧
    (((updatePoll principal pid q raw s).1
        = .err "Please provide at least two options.")
      ↔ (filterOptions raw).length < 2) ∧
    ((2 ≤ (filterOptions raw).length ∧ (filterOptions raw).length ≤ 10 ∧
        ∀ o ∈ filterOptions raw, o.length ≤ 200) →
      ((((createPoll principal q raw s nid).1
          = .err "All options must have content.")
        ↔ ∃ o ∈ filterOptions raw, (jsTrim o).length = 0) ∧
       (((updatePoll principal pid q raw s).1
          = .err "All options must have content.")
        ↔ ∃ o ∈ filterOptions raw, (jsTrim o).length = 0))) := by
  refine ⟨?_, ?_, ?_⟩
  · rw [createPoll_err_iff _ _ _ _ _ _ (by decide)]
    exact pollInputError_few_iff q _ hq h5
  · rw [updatePoll_err_iff _ _ _ _ _ _ (by decide) (by decide)]
    exact pollInputError_few_iff q _ hq h5
  · rintro ⟨h2, h10, hshort⟩
    constructor
    · rw [createPoll_err_iff _ _ _ _ _ _ (by decide)]
      exact pollInputError_empty_iff q _ hq h5 h2 h10 hshort
    · rw [updatePoll_err_iff _ _ _ _ _ _ (by decide) (by decide)]
      exact pollInputError_empty_iff q _ hq h5 h2 h10 hshort

/-- C7 witness: the amended statement applied at concrete inputs, the
hypotheses discharged by evaluation. -/
theorem C7_option_filtering_amended_witness :
    ((createPoll (some "u") "Q" ["a"] cStore "new-id").1
        = .err "Please provide at least two options.")
      ↔ (filterOptions ["a"]).length < 2 :=
  (C7_option_filtering_amended (some "u") cPoll.id "Q" ["a"] cStore "new-id"
    (by decide) (by decide)).1

/-- C8 counterexample: the value a successful createPoll returns is the same
bare success marker whatever identifier the store generates, so no reading of
the returned value recovers the new poll identifier — createPoll does not
return the identifier. -/
theorem C8_no_identifier_returned :
    ((createPoll (some "u") "Q" ["a", "b", "c"] cStore "id-A").1 = ActionResult.ok) ∧
    ¬ ∃ f : ActionResult → String,
        ∀ newId : String,
          f (createPoll (some "u") "Q" ["a", "b", "c"] cStore newId).1 = newId := by
  refine ⟨by decide, ?_⟩
  rintro ⟨f, hf⟩
  have h1 := hf "id-A"
  have h2 := hf "id-B"
  have e1 : (createPoll (some "u") "Q" ["a", "b", "c"] cStore "id-A").1
      = ActionResult.ok := by decide
  have e2 : (createPoll (some "u") "Q" ["a", "b", "c"] cStore "id-B").1
      = ActionResult.ok := by decide
  rw [e1] at h1
  rw [e2] at h2
  rw [h1] at h2
  exact absurd h2 (by decide)

/-- C8 (amended): createPoll with a valid payload succeeds, returning only a
success indication with no identifier; the poll persisted under the
store-generated identifier carries the trimmed question and the trimmed
surviving options in order, so getPollById on that identifier returns exactly
that poll. -/
theorem C8_roundtrip_amended (uid q : String) (raw : List String) (s : Store)
    (newId : String) (anyPrincipal : Option String)
    (hval : pollInputError q (filterOptions raw) = none)
    (hfresh : ∀ p ∈ s.polls, p.id ≠ newId) :
    (createPoll (some uid) q raw s newId).1 = .ok ∧
    getPollById anyPrincipal newId (createPoll (some uid) q raw s newId).2
      = (some { id := newId, user_id := uid, question := jsTrim q,
                options := (filterOptions raw).map (fun o => jsTrim o) }, none) := by
  constructor
  · rw [createPoll_result, hval]
  · have hnil : s.polls.filter (fun p => p.id == newId) = [] := by
      rw [List.filter_eq_nil_iff]
      intro p hp
      simpa using hfresh p hp
    simp only [getPollById, createPoll, hval, List.filter_append, hnil]
    simp

/-- C8 witness: the amended statement applied at concrete inputs, the
hypotheses discharged by evaluation. -/
theorem C8_roundtrip_amended_witness :
    (createPoll (some "u") "Q" ["a", "b", "c"] cStore "fresh-id").1 = .ok :=
  (C8_roundtrip_amended "u" "Q" ["a", "b", "c"] cStore "fresh-id" none
    (by decide) (by decide)).1

/-- C9: for every authenticated principal, existing poll, and option index
outside the range of the poll options, submitVote fails with the
InvalidOptionIndex message and returns the store unchanged — no vote record
is inserted on this failure path. -/
theorem C9_invalid_option_index (uid pollId : String) (idx : Int) (s : Store)
    (poll : Poll)
    (hpoll : s.polls.filter (fun p => p.id == pollId) = [poll])
    (hidx : idx < 0 ∨ (poll.options.length : Int) ≤ idx) :
    submitVote (some uid) pollId idx s = (.err "Invalid option selected.", s) := by
  have hcond : (decide (idx < 0) || decide ((poll.options.length : Int) ≤ idx)) = true := by
    rcases hidx with h | h <;> simp [h]
  simp only [submitVote, submitVoteChecks, hpoll, hcond]
  rfl

/-- C9 witness: the statement applied at concrete inputs, the hypotheses
discharged by evaluation. -/
theorem C9_invalid_option_index_witness :
    submitVote (some "bob") cPoll.id 5 cStore
      = (.err "Invalid option selected.", cStore) :=
  C9_invalid_option_index "bob" cPoll.id 5 cStore cPoll (by decide) (by decide)

/-- C10: the outcome of getPollById is the same for every calling principal,
including none — the current user is fetched by the action but never used,
the privacy check that would consult it being commented out. -/
theorem C10_getPollById_principal_independent (p1 p2 : Option String)
    (id : String) (s : Store) :
    getPollById p1 id s = getPollById p2 id s := rfl

end AlxPolly
